import Mathlib

/-!
# BayesDB engine (`bayesdb/engine.py`): a shallow embedding

This file embeds the orchestration logic of the `Engine` class in
`src/bayesdb/engine.py` as executable Lean definitions and proves, or refutes,
the specification claims about it.

Conventions used throughout:
* Latent model state (`X_L`, `X_D`) is opaque to the engine (it is only handed
  to the backend), so it is represented by `Nat`.
* Data values and categorical codes are represented by `Int`; the external
  encode/decode helpers (`data_utils.convert_value_to_code` /
  `convert_code_to_value`) are carried as explicit function parameters.
* The backend (`call_backend`) is an explicit function parameter; every engine
  operation returns the list of backend invocations it performed, so that
  "no backend call is made" is a provable statement.
* Python exceptions become values of `EngineError`; a function that can raise
  returns the error in its outcome record and leaves its state unchanged.
* Collaborators that live outside `src/` (persistence layer, `data_utils`,
  `select_utils`, parser) are either taken as parameters or modelled from the
  spec; each such definition says so in its doc comment.
-/

namespace BayesDB

/-- The errors raised by the engine (`utils.BayesDB*Error` plus the generic
`utils.BayesDBError` instances distinguished by their message), and the two
ways the embedded code can fail on malformed data (Python `assert`,
`KeyError`/`IndexError`). -/
inductive EngineError where
  /-- `utils.BayesDBInvalidBtableError`: the referenced btable does not exist. -/
  | invalidBtable
  /-- `utils.BayesDBNoModelsError`: the operation needs a non-empty ensemble. -/
  | noModels
  /-- `utils.BayesDBError('Btable with name %s already exists.')`. -/
  | tableExists
  /-- `utils.BayesDBError("Invalid model config")`. -/
  | invalidModelConfig
  /-- `utils.BayesDBError("Error: model config must match existing model config: ...")`. -/
  | configMismatch
  /-- `utils.BayesDBColumnDoesNotExistError` / a missing-column `KeyError`. -/
  | noSuchColumn
  /-- a failed Python `assert`. -/
  | assertionFailed
  /-- a Python `KeyError` on a model id. -/
  | keyError
  /-- a Python `IndexError`. -/
  | indexError
  deriving DecidableEq, Repr

/-- A model configuration: the `model_config` dict built by
`Engine.initialize_models` (`kernel_list`, `initialization`,
`row_initialization`). -/
structure ModelConfig where
  kernel_list : List String
  initialization : String
  row_initialization : String
  deriving DecidableEq, Repr

/-- The `'naive bayes'` preset of `initialize_models`. -/
def naiveBayesConfig : ModelConfig :=
  { kernel_list := ["column_hyperparameters"]
    initialization := "together"
    row_initialization := "together" }

/-- The `'crp mixture'` preset of `initialize_models`. -/
def crpMixtureConfig : ModelConfig :=
  { kernel_list := ["column_hyperparameters",
                    "row_partition_hyperparameters",
                    "row_partition_assignments"]
    initialization := "together"
    row_initialization := "from_the_prior" }

/-- The default (CrossCat) configuration of `initialize_models`:
`kernel_list=()` (backend default), both initializations `'from_the_prior'`. -/
def defaultConfig : ModelConfig :=
  { kernel_list := []
    initialization := "from_the_prior"
    row_initialization := "from_the_prior" }

/-- Python `str.lower()`, structurally over the character list (the engine
only compares against the ASCII preset names). -/
def pyLower (s : String) : String :=
  String.mk (s.data.map Char.toLower)

/-- The possible shapes of the `model_config` argument of
`Engine.initialize_models`: Python `None`, a string, or a dict whose three
relevant keys may each be present or absent (`dictArg` records the value of a
key as `some` when the key is present).  Any other Python value behaves like
`noneArg` (it is neither a string nor a dict, so the code takes the default
branch), so this covers every input. -/
inductive ModelConfigArg where
  | noneArg
  | strArg (s : String)
  | dictArg (kernel_list : Option (List String))
            (initialization : Option String)
            (row_initialization : Option String)
  deriving DecidableEq, Repr

/-- The configuration-resolution cascade at the top of
`Engine.initialize_models` (engine.py lines 313-330), branch for branch:

* a string equal (case-insensitively) to `'naive bayes'` or `'crp mixture'`
  picks the corresponding preset;
* otherwise, if the argument is not a dict, or is a dict missing any of
  `kernel_list` / `initialization` / `row_initialization`, the default
  CrossCat configuration is used;
* otherwise (the argument IS a dict containing all three keys) the code falls
  through to `raise utils.BayesDBError("Invalid model config")`. -/
def resolve_model_config : ModelConfigArg → Except EngineError ModelConfig
  | .strArg s =>
      if pyLower s = "naive bayes" then .ok naiveBayesConfig
      else if pyLower s = "crp mixture" then .ok crpMixtureConfig
      else .ok defaultConfig
  | .noneArg => .ok defaultConfig
  | .dictArg kl init rowInit =>
      if kl.isNone || init.isNone || rowInit.isNone then .ok defaultConfig
      else .error .invalidModelConfig

/-- The per-iteration diagnostic series returned by a backend `analyze` call
(`diagnostics_dict`) and stored on each model: `logscore`, `num_views`,
`column_crp_alpha`.  Entry values are opaque to the engine, so `Int`. -/
structure Diagnostics where
  logscore : List Int
  num_views : List Int
  column_crp_alpha : List Int
  deriving DecidableEq, Repr

/-- One model (inference chain), i.e. one value of the per-model dict
`dict(X_L=…, X_D=…, iterations=…, column_crp_alpha=…, logscore=…,
num_views=…, model_config=…)` built by `initialize_models`.  The latent
blobs `X_L`/`X_D` are opaque, hence `Nat`.  `model_config` is `none` when the
dict lacks the key (as for legacy models loaded by `load_models`); for the
legacy shape the diagnostic-series keys are likewise absent, modelled here as
empty series. -/
structure Model where
  xL : Nat
  xD : Nat
  iterations : Nat
  logscore : List Int
  num_views : List Int
  column_crp_alpha : List Int
  model_config : Option ModelConfig
  deriving DecidableEq, Repr

/-- The ensemble of one btable: the ordered-by-id mapping model-id → Model
(the persistence layer's `dict[model_id] = model`). -/
abbrev Ensemble := List (Nat × Model)

/-- Modelled from the spec: `persistence_layer.has_models` (not under `src/`);
the spec's precondition "requires a non-empty ensemble" identifies it with
ensemble non-emptiness. -/
def has_models (ens : Ensemble) : Bool :=
  !ens.isEmpty

/-- Modelled from the spec: `persistence_layer.get_max_model_id` (not under
`src/`); `-1` when there are no models, per `analyze`'s
`if max_model_id == -1` check. -/
def get_max_model_id (ens : Ensemble) : Int :=
  (ens.map (fun p => (p.1 : Int))).foldl max (-1)

/-- Modelled from the spec: `persistence_layer.get_model_config` (not under
`src/`).  The spec's invariant is that all models of a non-empty ensemble
share one configuration; the stored shared configuration is that of the
first model, `none` for an empty ensemble. -/
def get_model_config (ens : Ensemble) : Option ModelConfig :=
  match ens with
  | [] => none
  | (_, m) :: _ => m.model_config

/-- Sequential id assignment: pair each model in order with ids
`start, start+1, …`. -/
def attach_ids (start : Nat) : List Model → Ensemble
  | [] => []
  | m :: ms => (start, m) :: attach_ids (start + 1) ms

/-- Modelled from the spec: `persistence_layer.add_models` (not under `src/`).
Appends the given models to the ordered-by-id ensemble under fresh sequential
model ids starting above the current maximum id. -/
def add_models (ens : Ensemble) (ms : List Model) : Ensemble :=
  let start : Nat := (ens.map (fun p => p.1 + 1)).foldl max 0
  ens ++ attach_ids start ms

/-- Modelled from the spec: `persistence_layer.get_latent_states` (not under
`src/`); returns the `(X_L, X_D)` pairs of the selected models — all models
when `modelids` is `None`, else the models whose id is listed. -/
def get_latent_states (ens : Ensemble) (modelids : Option (List Nat)) :
    List (Nat × Nat) :=
  match modelids with
  | none => ens.map (fun p => (p.2.xL, p.2.xD))
  | some ids => (ens.filter (fun p => ids.contains p.1)).map (fun p => (p.2.xL, p.2.xD))

/-- A record of one backend invocation (`Engine.call_backend`), carrying the
operation name and the arguments the engine actually computes.
`initializeOp` records `n_chains`, `initialization` and `row_initialization`;
`analyzeOp` records the selected latent states, the kernel list, `n_steps`
and `max_time`; `sampleOp` records `Y`, `Q` and `n` of
`simple_predictive_sample`. -/
inductive BackendOp where
  | initializeOp (n_chains : Nat) (initialization row_initialization : String)
  | analyzeOp (xls xds : List Nat) (kernel_list : List String)
              (n_steps : Nat) (max_time : Option Nat)
  | sampleOp (Y : Option (List (Nat × Nat × Int))) (Q : List (Nat × Nat)) (n : Nat)
  deriving DecidableEq, Repr

/-- Outcome of `initialize_models`: the (possibly updated) ensemble, the
raised error if any, and the backend invocations performed. -/
structure InitModelsOutcome where
  ensemble : Ensemble
  err : Option EngineError
  calls : List BackendOp
  deriving DecidableEq, Repr

/-- `Engine.initialize_models` (engine.py lines 298-356), for an existing
btable.  `backendInit` stands for the backend's `initialize` operation: given
`n_chains` and the two initialization strategies it returns the list of new
`(X_L, X_D)` pairs (the code's special-casing of `n_models == 1`, where the
backend returns a bare pair rather than singleton lists, is a Python typing
artifact absorbed by this list-valued contract).

Order of events, as in the source: resolve the configuration argument
(possibly raising `Invalid model config`), check it against the existing
ensemble's configuration (raising `configMismatch` on a difference), only
then call the backend once, and append one model per returned latent pair
with iteration count 0, empty diagnostic series and the resolved
configuration. -/
def initialize_models (backendInit : Nat → String → String → List (Nat × Nat))
    (ens : Ensemble) (n_models : Nat) (arg : ModelConfigArg) : InitModelsOutcome :=
  match resolve_model_config arg with
  | .error e => ⟨ens, some e, []⟩
  | .ok cfg =>
      let existing := get_model_config ens
      if existing.isSome ∧ existing ≠ some cfg then
        ⟨ens, some .configMismatch, []⟩
      else
        let pairs := backendInit n_models cfg.initialization cfg.row_initialization
        let model_list : List Model :=
          pairs.map (fun p =>
            { xL := p.1, xD := p.2, iterations := 0,
              logscore := [], num_views := [], column_crp_alpha := [],
              model_config := some cfg })
        ⟨add_models ens model_list, none,
         [.initializeOp n_models cfg.initialization cfg.row_initialization]⟩

/-- The position of id `i` in the selected-id list (first occurrence), used
to pair each selected model with its entry in the latent-state lists the
backend returned. -/
def indexOfId (i : Nat) : List Nat → Option Nat
  | [] => none
  | j :: rest => if j = i then some 0 else (indexOfId i rest).map (· + 1)

/-- The new value of one ensemble entry under `update_models`: a selected
model (its id occurs in `modelids` at position `k`) takes the `k`-th returned
latent states, its iteration count grows by the diagnostics-series length and
the diagnostics series are appended to; an unselected model is untouched. -/
def upd_entry (modelids : List Nat) (xls xds : List Nat) (d : Diagnostics)
    (p : Nat × Model) : Model :=
  match indexOfId p.1 modelids with
  | some k =>
      { p.2 with
         xL := xls.getD k p.2.xL
         xD := xds.getD k p.2.xD
         iterations := p.2.iterations + d.logscore.length
         logscore := p.2.logscore ++ d.logscore
         num_views := p.2.num_views ++ d.num_views
         column_crp_alpha := p.2.column_crp_alpha ++ d.column_crp_alpha }
  | none => p.2

/-- Modelled from the spec: `persistence_layer.update_models` (not under
`src/`).  Per §4.2 of the spec, it "updates exactly the selected models'
latent state, iteration count (incremented, not overwritten), and appends to
their diagnostic series", the number of completed iterations being the length
of the diagnostics series.  The selected models are paired positionally with
the returned latent-state lists, every unselected model is left untouched. -/
def update_models (ens : Ensemble) (modelids : List Nat)
    (xls xds : List Nat) (d : Diagnostics) : Ensemble :=
  ens.map (fun p => (p.1, upd_entry modelids xls xds d p))

/-- The selected models of an `analyze` call, in selected-id order:
`[models[i] for i in modelids]` (total here; `analyze` checks for a missing
id — the Python `KeyError` — before using it). -/
def analyze_selected (ens : Ensemble) (modelids : List Nat) : List Model :=
  modelids.filterMap (fun i => ens.lookup i)

/-- `X_L_list` of an `analyze` call (engine.py line 421). -/
def analyze_xls (ens : Ensemble) (modelids : List Nat) : List Nat :=
  (analyze_selected ens modelids).map Model.xL

/-- `X_D_list` of an `analyze` call (engine.py line 422). -/
def analyze_xds (ens : Ensemble) (modelids : List Nat) : List Nat :=
  (analyze_selected ens modelids).map Model.xD

/-- The kernel list of an `analyze` call (engine.py lines 424-428): read from
the first selected model's stored configuration, the default `()` when the
configuration (or its `kernel_list` key, always present in our configs) is
absent. -/
def analyze_kern (ens : Ensemble) (modelids : List Nat) : List String :=
  match analyze_selected ens modelids with
  | [] => []
  | first :: _ => (first.model_config.map ModelConfig.kernel_list).getD []

/-- Outcome of `analyze`: the (possibly updated) ensemble, the raised error if
any, the returned user message if any, and the backend invocations made. -/
structure AnalyzeOutcome where
  ensemble : Ensemble
  err : Option EngineError
  message : Option String
  calls : List BackendOp
  deriving DecidableEq, Repr

/-- `Engine.analyze` (engine.py lines 390-445), for an existing btable.
`backendAnalyze` stands for the backend's `analyze` operation: from the
selected latent states, the kernel list, `n_steps` and the optional
`max_time` it returns updated latent-state lists and the diagnostics series
(`do_diagnostics=True`; the `ct_kernel` pass-through flag is irrelevant here
and omitted).

As in the source: a `has_models` gate (`NoModelsError`), the default of 1000
iterations, the (unreachable, but embedded) `max_model_id == -1` advisory
return, selection of model ids (`None`/`'all'` → all ids sorted, else the
given list — a KeyError surfaces if a listed id has no model, an IndexError
if the list is empty, since the code reads `models[modelids[0]]`), the kernel
list taken from the first selected model's stored configuration (default `()`
when the configuration or key is absent), one backend call, and a
`persistence_layer.update_models` write-back. The local
`iterations = len(diagnostics_dict['logscore'])` of the source is dead code
(the credited count is computed inside `update_models`); the embedding keeps
the accounting where the source keeps it. -/
def analyze (backendAnalyze : List Nat → List Nat → List String → Nat → Option Nat →
      (List Nat × List Nat × Diagnostics))
    (ens : Ensemble) (model_indices : Option (List Nat))
    (iterations : Option Nat) (seconds : Option Nat) : AnalyzeOutcome :=
  if !has_models ens then ⟨ens, some .noModels, none, []⟩
  else
    let iters := iterations.getD 1000
    if get_max_model_id ens = -1 then
      ⟨ens, none, some "You must INITIALIZE MODELS before using ANALYZE.", []⟩
    else
      let modelids :=
        match model_indices with
        | none => (ens.map Prod.fst).insertionSort (· ≤ ·)
        | some ids => ids
      if !modelids.all (fun i => (ens.lookup i).isSome) then
        ⟨ens, some .keyError, none, []⟩
      else if (analyze_selected ens modelids).isEmpty then
        ⟨ens, some .indexError, none, []⟩
      else
        let xls := analyze_xls ens modelids
        let xds := analyze_xds ens modelids
        let kernel_list := analyze_kern ens modelids
        let res := backendAnalyze xls xds kernel_list iters seconds
        ⟨update_models ens modelids res.1 res.2.1 res.2.2, none,
         some "Analyze complete.",
         [.analyzeOp xls xds kernel_list iters seconds]⟩

/-- The function component of a query function descriptor, i.e. which
function object from the external `functions` module sits in `queries[k][0]`
after `parser.parse_functions`.  `row_id` and `column` are the raw-column
descriptors; the other four are the model-backed statistics blacklisted by
`select` when the ensemble is empty. -/
inductive QueryFunc where
  | row_id
  | column
  | similarity
  | row_typicality
  | col_typicality
  | probability
  | predictive_probability
  deriving DecidableEq, Repr

/-- A resolved query descriptor `(query_function, query_args, aggregate)` as
produced by the parser; the argument component is opaque to the precondition
logic, so `List Int`. -/
abbrev QueryTriple := QueryFunc × List Int × Bool

/-- Python equality between a bare function object `bf` and a
`(query_function, query_args, aggregate)` tuple, as evaluated by the
membership test `if bf in queries` in `Engine.select` (engine.py line 508):
`queries` holds triples, `bf` is a function, and in Python a function object
never compares equal to a tuple, so the test is `False` at every element. -/
def pyFuncEqTriple (_bf : QueryFunc) (_q : QueryTriple) : Bool :=
  false

/-- Whether `needle` occurs as a contiguous sublist, structurally: it is a
prefix here or occurs further along. -/
def listContainsSub (needle : List Char) : List Char → Bool
  | [] => needle.isEmpty
  | c :: rest => needle.isPrefixOf (c :: rest) || listContainsSub needle rest

/-- Python substring containment `needle in hay` for strings. -/
def strContains (hay needle : String) : Bool :=
  listContainsSub needle.data hay.data

/-- The blacklisted function objects of `Engine.select` (engine.py line 505):
`functions._similarity`, `functions._row_typicality`,
`functions._col_typicality`, `functions._probability`. -/
def blacklisted_functions : List QueryFunc :=
  [.similarity, .row_typicality, .col_typicality, .probability]

/-- The blacklisted function-name fragments checked against order-by
function strings in `Engine.select` (engine.py line 512). -/
def blacklisted_function_names : List String :=
  ["similarity", "typicality", "probability", "predictive probability"]

/-- The empty-ensemble precondition block of `Engine.select` (engine.py lines
504-516), statement for statement.  `x_l_count` is `len(X_L_list)`;
`order_by` is the list of raw order-by function strings `x[0]` (the Python
`order_by=False` case is the empty list, on which the `if order_by:` guard
and the loops agree).  Returns the raised error, if any:

* `used_functions` is computed and never used — kept here as in the source;
* the selected-function check tests `bf in queries`, i.e. membership of a
  function object in a list of triples (`pyFuncEqTriple`);
* the order-by check tests each blacklisted name for Python substring
  containment in each order-by function string. -/
def select_no_models_check (x_l_count : Nat) (queries : List QueryTriple)
    (order_by : List String) : Option EngineError :=
  if x_l_count = 0 then
    let _used_functions := queries.map (fun q => q.1)
    if blacklisted_functions.any (fun bf => queries.any (fun q => pyFuncEqTriple bf q)) then
      some .noModels
    else if order_by.any (fun obf =>
        blacklisted_function_names.any (fun fname => strContains obf fname)) then
      some .noModels
    else
      none
  else
    none

/-- `Engine.select` (engine.py lines 465-551), for an existing btable, with
the external stages abstracted: rows are already decoded and where-filtered
inputs are represented by `rows`, and `stages` stands for the composition of
`select_utils.filter_and_impute_rows`, `select_utils.order_rows` and
`select_utils.compute_result_and_limit` (modules outside `src/`, total over
their inputs).  What is embedded concretely is the control flow that decides
between failing with `NoModelsError` and proceeding: the precondition block
`select_no_models_check` runs first; if it raises, the stages never run. -/
def select (x_l_count : Nat) (queries : List QueryTriple) (order_by : List String)
    (stages : List (List Int) → List (List Int)) (rows : List (List Int)) :
    Except EngineError (List (List Int)) :=
  match select_no_models_check x_l_count queries order_by with
  | some e => .error e
  | none => .ok (stages rows)

/-- `Engine.infer` (engine.py lines 447-463), for an existing btable: a
blanket `has_models` gate raising `NoModelsError` (engine.py lines 456-457),
then delegation to `select` with the imputation parameters set. -/
def infer (ens : Ensemble) (x_l_count : Nat) (queries : List QueryTriple)
    (order_by : List String) (stages : List (List Int) → List (List Int))
    (rows : List (List Int)) : Except EngineError (List (List Int)) :=
  if !has_models ens then .error .noModels
  else select x_l_count queries order_by stages rows

/-- The value codecs of the external `data_utils` module (not under `src/`),
modelled from the spec as per-column encode/decode maps between original
values and categorical codes: `encode` is `convert_value_to_code(M_c, c, v)`
and `decode` is `convert_code_to_value(M_c, c, code)`. -/
structure MCodec where
  encode : Nat → Int → Int
  decode : Nat → Int → Int

/-- The dict `given_col_idxs_to_vals` of `Engine.simulate` (engine.py lines
571-580), as a lookup: built by successive assignment over the given
conditions, so for a repeated column the last assignment wins; `none` when
the column is not given (`givens is None` behaves as no conditions). -/
def given_lookup (givens : Option (List (Nat × Int))) (idx : Nat) : Option Int :=
  ((givens.getD []).reverse).lookup idx

/-- `query_col_indices` of `Engine.simulate` (engine.py line 594): the
queried column indices not fixed by a given, duplicates preserved. -/
def sim_query_cols (givens : Option (List (Nat × Int))) (col_indices : List Nat) :
    List Nat :=
  col_indices.filter (fun idx => (given_lookup givens idx).isNone)

/-- `Q` of `Engine.simulate` (engine.py line 595): one `(numrows+1, col)`
query cell per remaining queried column. -/
def sim_Q (numrows : Nat) (givens : Option (List (Nat × Int)))
    (col_indices : List Nat) : List (Nat × Nat) :=
  (sim_query_cols givens col_indices).map (fun c => (numrows + 1, c))

/-- `Y` of `Engine.simulate` (engine.py lines 573-583): `None` when no givens
clause is present, else one `(numrows+1, col, code)` constraint per given
condition, the value encoded by the codec. -/
def sim_Y (numrows : Nat) (codec : MCodec) (givens : Option (List (Nat × Int))) :
    Option (List (Nat × Nat × Int)) :=
  givens.map (fun gs => gs.map (fun g => (numrows + 1, g.1, codec.encode g.1 g.2)))

/-- The merge loop body of `Engine.simulate` (engine.py lines 607-614) for one
sampled row: walk the queried column indices; a given column contributes its
given value verbatim, any other column consumes the next entry of the sampled
row (the counter `i`) and contributes its decoded value.  `none` models the
IndexError raised when the sampled row is too short. -/
def mergeRow (g : Nat → Option Int) (decode : Nat → Int → Int) :
    List Nat → List Int → Option (List Int)
  | [], _ => some []
  | idx :: rest, samples =>
      match g idx with
      | some v => (mergeRow g decode rest samples).map (fun r => v :: r)
      | none =>
          match samples with
          | [] => none
          | s :: srest => (mergeRow g decode rest srest).map (fun r => decode idx s :: r)

/-- The number of non-given queried columns strictly before position `k` of
the queried column list: the value of the sample counter `i` of the merge
loop (engine.py lines 608-614) when the loop reaches position `k`. -/
def nonGivenBefore (g : Nat → Option Int) (cols : List Nat) (k : Nat) : Nat :=
  ((cols.take k).filter (fun c => (g c).isNone)).length

/-- The outer merge loop of `Engine.simulate` (engine.py lines 605-615): one
merged output row per backend draw. -/
def mergeRows (g : Nat → Option Int) (decode : Nat → Int → Int)
    (col_indices : List Nat) : List (List Int) → Option (List (List Int))
  | [] => some []
  | o :: os =>
      match mergeRow g decode col_indices o, mergeRows g decode col_indices os with
      | some r, some rs => some (r :: rs)
      | _, _ => none

/-- The result component of a `simulate` outcome: a raised error, a plain
message-only dict (`{'message': …}`), or a `{'columns': …, 'data': …}`
result. -/
inductive SimResult where
  | err (e : EngineError)
  | msg (s : String)
  | ok (columns : List String) (data : List (List Int))
  deriving DecidableEq, Repr

/-- Outcome of `simulate`: the result and the backend invocations made. -/
structure SimOutcome where
  result : SimResult
  calls : List BackendOp
  deriving DecidableEq, Repr

/-- `Engine.simulate` (engine.py lines 554-633), for an existing btable.
Inputs are post-parsing, as they stand after the external parser and
`utils.string_to_column_type` have run: `givens` is the list of
`(column index, typed value)` given conditions (`none` for no givens clause),
`col_indices` is `[query[1] for query in queries[1:]]` and `colnames` is
`query_colnames[1:]`.  `backendSample` stands for the backend's
`simple_predictive_sample` operation (`Y`, `Q`, `n` ↦ draws).

As in the source, in order: the `has_models` gate raising `NoModelsError`
(engine.py lines 559-560); the advisory message-only return when the selected
latent-state list is empty (lines 563-564); the construction of the given
map, `Y`, `Q`; one backend call iff `Q` is non-empty, else locally
constructed empty draws; the `assert` on the number of draws (line 601,
requiring at least one draw and exactly `numpredictions` of them); and the
merge-and-decode loop.  The trailing INTO / summarize shaping (lines 617-632)
reuses machinery embedded elsewhere and is not needed by any claim about
`simulate`. -/
def simulate
    (backendSample : Option (List (Nat × Nat × Int)) → List (Nat × Nat) → Nat →
      List (List Int))
    (ens : Ensemble) (modelids : Option (List Nat)) (numrows : Nat) (codec : MCodec)
    (givens : Option (List (Nat × Int))) (col_indices : List Nat)
    (colnames : List String) (numpredictions : Nat) : SimOutcome :=
  if !has_models ens then ⟨.err .noModels, []⟩
  else if (get_latent_states ens modelids).isEmpty then
    ⟨.msg "You must INITIALIZE MODELS (and highly preferably ANALYZE) before using predictive queries.", []⟩
  else
    let Y := sim_Y numrows codec givens
    let Q := sim_Q numrows givens col_indices
    let outCalls :=
      if Q.length > 0 then
        (backendSample Y Q numpredictions, [BackendOp.sampleOp Y Q numpredictions])
      else
        (List.replicate numpredictions [], [])
    let out := outCalls.1
    if ¬ (out.length ≥ 1 ∧ out.length = numpredictions) then
      ⟨.err .assertionFailed, outCalls.2⟩
    else
      match mergeRows (given_lookup givens) codec.decode col_indices out with
      | none => ⟨.err .indexError, outCalls.2⟩
      | some data => ⟨.ok colnames data, outCalls.2⟩

/-- A per-column declared type (`cctype`). -/
inductive CCType where
  | continuous
  | multinomial
  | ignore
  | key
  deriving DecidableEq, Repr

/-- A btable schema: the ordered column-name → declared-type association
(the information of `M_c` / `cctypes_full` relevant here). -/
abbrev Schema := List (String × CCType)

/-- The catalog of btables: name → schema.  Row data is irrelevant to every
claim about table creation, so only the schema is recorded. -/
abbrev Catalog := List (String × Schema)

/-- `persistence_layer.check_if_table_exists`, modelled from the spec's
catalog contract `tableExists(name) -> bool` (not under `src/`). -/
def check_if_table_exists (cat : Catalog) (name : String) : Bool :=
  (cat.lookup name).isSome

/-- Modelled from the spec: `utils.get_cctype_from_M_c` (not under `src/`);
per §4.3 step 5, the declared type of a reused column name is read from the
existing table's metadata — a lookup in the source schema. -/
def get_cctype_from_M_c (M_c : Schema) (col : String) : Option CCType :=
  M_c.lookup col

/-- The per-column type resolution loop of `create_btable_from_existing`
(engine.py line 211): `cctypes_full = [get_cctype_from_M_c(M_c, col) for col
in colnames_full]`, paired back with the column names; `none` models the
failure surfaced when a column is absent from the source metadata. -/
def resolve_cctypes (src_M_c : Schema) : List String → Option Schema
  | [] => some []
  | c :: rest =>
      match get_cctype_from_M_c src_M_c c, resolve_cctypes src_M_c rest with
      | some t, some s => some ((c, t) :: s)
      | _, _ => none

/-- Outcome of `create_btable_from_existing`: the (possibly extended)
catalog, the raised error if any, and the schema of the created table if
one was created. -/
structure CreateOutcome where
  catalog : Catalog
  err : Option EngineError
  schema : Option Schema
  deriving DecidableEq, Repr

/-- `Engine.create_btable_from_existing` (engine.py lines 196-219), the INTO
materialization path (`select` calls it at lines 536-537, `simulate` at
618-619; `create_btable` at lines 228-229 opens with the same
existence-check-then-fail).  As in the source: fail outright with the
already-exists error when the target name names an existing table (nothing
is written); otherwise drop the `row_id` column, resolve every remaining
column's declared type from the source table's metadata, and register the
new table under those types (`gen_T_and_metadata` / `create_btable` of the
external layers, modelled from the spec as recording the schema in the
catalog). -/
def create_btable_from_existing (cat : Catalog) (tablename : String)
    (colnames_full : List String) (src_M_c : Schema) : CreateOutcome :=
  if check_if_table_exists cat tablename then
    ⟨cat, some .tableExists, none⟩
  else
    let colnames := colnames_full.filter (fun c => c ≠ "row_id")
    match resolve_cctypes src_M_c colnames with
    | none => ⟨cat, some .noSuchColumn, none⟩
    | some schema => ⟨cat ++ [(tablename, schema)], none, some schema⟩

/-- The shapes accepted by `Engine.load_models`: the current per-model dict
format (its values carried in id order, as `models.values()` is), or the
legacy v0.1 format `dict[X_L_list, X_D_list, M_c, T]` holding two parallel
sequences of latent states. -/
inductive ModelsInput where
  | current (ms : List Model)
  | legacy (xls : List Nat) (xds : List Nat)
  deriving DecidableEq, Repr

/-- The legacy-upgrade loop of `Engine.load_models` (engine.py lines 282-285):
`for id, (X_L, X_D) in enumerate(zip(old['X_L_list'], old['X_D_list'])):
models[id] = dict(X_L=X_L, X_D=X_D, iterations=500)`.  The two sequences are
paired positionally (`zip`, truncating to the shorter), each pair becomes a
model whose iteration count is the fixed constant 500 and whose dict carries
no `model_config` key (and no diagnostic-series keys: empty series here). -/
def upgrade_legacy_models (xls xds : List Nat) : List Model :=
  (xls.zip xds).map (fun p =>
    { xL := p.1, xD := p.2, iterations := 500,
      logscore := [], num_views := [], column_crp_alpha := [],
      model_config := none })

/-- `Engine.load_models` (engine.py lines 267-288), for an existing btable:
the legacy shape is detected by the presence of the `X_L_list` key and
upgraded by `upgrade_legacy_models`; either way the resulting model values
are appended to the table's ensemble via `persistence_layer.add_models`. -/
def load_models (ens : Ensemble) (input : ModelsInput) : Ensemble :=
  match input with
  | .legacy xls xds => add_models ens (upgrade_legacy_models xls xds)
  | .current ms => add_models ens ms

/-- A default model, used only as the irrelevant `getD` fallback in
positional statements and as concrete witness material. -/
def defaultModel : Model :=
  { xL := 0, xD := 0, iterations := 0,
    logscore := [], num_views := [], column_crp_alpha := [], model_config := none }

/-- The identity codec, used in concrete instantiations. -/
def idCodec : MCodec :=
  { encode := fun _ v => v, decode := fun _ v => v }

/-- Concrete witness model A (id 0 of `witEns`). -/
def witModelA : Model :=
  { xL := 1, xD := 2, iterations := 10, logscore := [5],
    num_views := [], column_crp_alpha := [], model_config := some naiveBayesConfig }

/-- Concrete witness model B (id 1 of `witEns`). -/
def witModelB : Model :=
  { xL := 3, xD := 4, iterations := 20, logscore := [],
    num_views := [], column_crp_alpha := [], model_config := some naiveBayesConfig }

/-- A concrete two-model ensemble for witnesses. -/
def witEns : Ensemble :=
  [(0, witModelA), (1, witModelB)]

/-- A concrete backend `analyze` stub for witnesses: returns latent states
`[9]`, `[9]` and a 3-entry logscore series regardless of the request. -/
def witBackendAnalyze : List Nat → List Nat → List String → Nat → Option Nat →
    (List Nat × List Nat × Diagnostics) :=
  fun _ _ _ _ _ => ([9], [9], ⟨[1, 2, 3], [], []⟩)

/-- A concrete backend `simple_predictive_sample` stub for witnesses: `n`
draws of the single code `9`. -/
def witBackendSample : Option (List (Nat × Nat × Int)) → List (Nat × Nat) → Nat →
    List (List Int) :=
  fun _ _ n => List.replicate n [9]

/-! ## Helper lemmas -/

theorem attach_ids_length (start : Nat) (ms : List Model) :
    (attach_ids start ms).length = ms.length := by
  induction ms generalizing start with
  | nil => rfl
  | cons m ms ih => simp [attach_ids, ih]

theorem snd_mem_of_mem_attach_ids {start : Nat} {ms : List Model}
    {p : Nat × Model} (h : p ∈ attach_ids start ms) : p.2 ∈ ms := by
  induction ms generalizing start with
  | nil => simp [attach_ids] at h
  | cons m ms ih =>
      simp only [attach_ids, List.mem_cons] at h
      rcases h with h | h
      · subst h; simp
      · exact List.mem_cons_of_mem _ (ih h)

theorem add_models_length (ens : Ensemble) (ms : List Model) :
    (add_models ens ms).length = ens.length + ms.length := by
  simp [add_models, attach_ids_length]

theorem mem_add_models {ens : Ensemble} {ms : List Model} {p : Nat × Model}
    (h : p ∈ add_models ens ms) : p ∈ ens ∨ p.2 ∈ ms := by
  simp only [add_models, List.mem_append] at h
  rcases h with h | h
  · exact Or.inl h
  · exact Or.inr (snd_mem_of_mem_attach_ids h)

/-! ## Claim C3 -/

/-- Claim C3: `initializeModels` resolves the named presets `"naive bayes"`
and `"crp mixture"` (case-insensitively) to their fixed configurations and
falls back to the backend default on absent or invalid input — but, contrary
to the claim and to the function's own docstring, an explicit dict containing
all of `kernel_list`, `initialization` and `row_initialization` is NOT
accepted as given: the membership conditions are inverted, so exactly the
well-formed dicts reach the `raise utils.BayesDBError("Invalid model
config")` branch, while a dict missing a key silently gets the default. -/
theorem C3_model_config_resolution_behavior :
    resolve_model_config (.strArg "naive bayes") = .ok naiveBayesConfig ∧
    resolve_model_config (.strArg "CRP Mixture") = .ok crpMixtureConfig ∧
    resolve_model_config .noneArg = .ok defaultConfig ∧
    resolve_model_config (.strArg "some nonsense") = .ok defaultConfig ∧
    resolve_model_config (.dictArg none (some "together") (some "together")) =
      .ok defaultConfig ∧
    resolve_model_config
        (.dictArg (some ["column_hyperparameters"]) (some "together") (some "together")) =
      .error .invalidModelConfig := by
  refine ⟨?_, ?_, ?_, ?_, ?_, ?_⟩ <;> rfl

/-! ## Claim C1 -/

/-- Claim C1: with an empty ensemble, `select` with only raw-column functions
succeeds, and a model-backed order-by function raises `NoModelsError`; but
contrary to the claim (and to the source's own comment "If there are no
models, make sure that we aren't using functions that require models"), a
model-backed *selected* function does NOT raise `NoModelsError`: the check
`if bf in queries` tests membership of a function object in the list of
`(function, args, aggregate)` triples and can never fire (the computed
`used_functions` list is dead).  Moreover `infer` on a model-less table
raises `NoModelsError` even for raw-column-only queries, via its blanket
`has_models` gate.  The last conjunct shows the selected-function branch is
unreachable for every query list. -/
theorem C1_no_models_gate_behavior :
    select 0 [(QueryFunc.row_id, [], false), (QueryFunc.column, [0], false)] []
      id [[1], [2]] = .ok [[1], [2]] ∧
    select 0 [(QueryFunc.row_id, [], false), (QueryFunc.similarity, [1], false)] []
      id [[1], [2]] = .ok [[1], [2]] ∧
    select 0 [(QueryFunc.row_id, [], false), (QueryFunc.column, [0], false)]
      ["similarity to row 1"] id [[1], [2]] = .error .noModels ∧
    infer [] 0 [(QueryFunc.row_id, [], false), (QueryFunc.column, [0], false)] []
      id [[1], [2]] = .error .noModels ∧
    ∀ queries : List QueryTriple, select_no_models_check 0 queries [] = none := by
  refine ⟨rfl, rfl, by rfl, rfl, ?_⟩
  intro queries
  simp [select_no_models_check, pyFuncEqTriple]

/-! ## Claim C9 -/

theorem upgrade_legacy_models_length (xls xds : List Nat) :
    (upgrade_legacy_models xls xds).length = min xls.length xds.length := by
  simp [upgrade_legacy_models]

theorem upgrade_legacy_models_getD (xls xds : List Nat) (i : Nat)
    (h : i < (upgrade_legacy_models xls xds).length) :
    ((upgrade_legacy_models xls xds).getD i defaultModel).xL = xls.getD i 0 ∧
    ((upgrade_legacy_models xls xds).getD i defaultModel).xD = xds.getD i 0 ∧
    ((upgrade_legacy_models xls xds).getD i defaultModel).iterations = 500 ∧
    ((upgrade_legacy_models xls xds).getD i defaultModel).model_config = none := by
  induction xls generalizing xds i with
  | nil => simp [upgrade_legacy_models] at h
  | cons x xs ih =>
      cases xds with
      | nil => simp [upgrade_legacy_models] at h
      | cons y ys =>
          cases i with
          | zero => simp [upgrade_legacy_models]
          | succ j =>
              have hj : j < (upgrade_legacy_models xs ys).length := by
                simpa [upgrade_legacy_models, Nat.succ_lt_succ_iff] using h
              simpa [upgrade_legacy_models] using ih ys j hj

/-- Claim C9: `loadModels` on the legacy model shape (`X_L_list`/`X_D_list`)
upgrades it by pairing the two sequences positionally — the i-th model takes
the i-th entry of each sequence — with every iteration count defaulted to the
fixed legacy constant 500 and the configuration left absent, and loads the
result as new models. -/
theorem C9_load_models_legacy_upgrade (ens : Ensemble) (xls xds : List Nat) :
    load_models ens (.legacy xls xds) = add_models ens (upgrade_legacy_models xls xds) ∧
    (upgrade_legacy_models xls xds).length = min xls.length xds.length ∧
    ∀ i, i < (upgrade_legacy_models xls xds).length →
      ((upgrade_legacy_models xls xds).getD i defaultModel).xL = xls.getD i 0 ∧
      ((upgrade_legacy_models xls xds).getD i defaultModel).xD = xds.getD i 0 ∧
      ((upgrade_legacy_models xls xds).getD i defaultModel).iterations = 500 ∧
      ((upgrade_legacy_models xls xds).getD i defaultModel).model_config = none :=
  ⟨rfl, upgrade_legacy_models_length xls xds,
   fun i h => upgrade_legacy_models_getD xls xds i h⟩

/-- Witness for C9: the legacy upgrade evaluated at concrete parallel
sequences of lengths 3 and 2. -/
theorem C9_load_models_legacy_upgrade_witness :
    (upgrade_legacy_models [7, 8, 9] [4, 5]).length = min 3 2 ∧
    ((upgrade_legacy_models [7, 8, 9] [4, 5]).getD 1 defaultModel).xL = 8 ∧
    ((upgrade_legacy_models [7, 8, 9] [4, 5]).getD 1 defaultModel).iterations = 500 ∧
    ((upgrade_legacy_models [7, 8, 9] [4, 5]).getD 1 defaultModel).model_config = none := by
  have h := C9_load_models_legacy_upgrade [] [7, 8, 9] [4, 5]
  have h1 := h.2.2 1 (by decide)
  exact ⟨h.2.1, h1.1, h1.2.2.1, h1.2.2.2⟩

/-! ## Claim C2 -/

/-- Counterexample to claim C2: on an existing table whose ensemble is empty,
`simulate` does NOT fail by returning a plain advisory message — the
`has_models` gate at the top of `simulate` raises `NoModelsError` first, so
the message-only return two lines later is unreachable for an empty
ensemble.  Evaluated at a concrete call. -/
theorem C2_simulate_empty_ensemble_counterexample :
    simulate (fun _ _ n => List.replicate n [0]) ([] : Ensemble) none 3 idCodec
        none [0] ["c0"] 1 =
      ⟨.err .noModels, []⟩ ∧
    ∀ s, (simulate (fun _ _ n => List.replicate n [0]) ([] : Ensemble) none 3 idCodec
        none [0] ["c0"] 1).result ≠ SimResult.msg s := by
  refine ⟨rfl, ?_⟩
  intro s h
  rw [show (simulate (fun _ _ n => List.replicate n [0]) ([] : Ensemble) none 3 idCodec
      none [0] ["c0"] 1) = ⟨.err .noModels, []⟩ from rfl] at h
  exact SimResult.noConfusion h

/-- Claim C2 as amended: for an existing table whose ensemble is empty,
`simulate` raises `NoModelsError` (like `select`/`infer`) with no backend
call; the plain advisory message-only result is returned exactly when the
table has models but the latent states selected for the query are empty
(e.g. a `modelids` filter matching none). -/
theorem C2_simulate_empty_ensemble_amended
    (backendSample : Option (List (Nat × Nat × Int)) → List (Nat × Nat) → Nat →
      List (List Int))
    (ens : Ensemble) (modelids : Option (List Nat)) (numrows : Nat) (codec : MCodec)
    (givens : Option (List (Nat × Int))) (col_indices : List Nat)
    (colnames : List String) (numpredictions : Nat) :
    (ens = [] →
      simulate backendSample ens modelids numrows codec givens col_indices
          colnames numpredictions =
        ⟨.err .noModels, []⟩) ∧
    (ens ≠ [] → (get_latent_states ens modelids).isEmpty = true →
      simulate backendSample ens modelids numrows codec givens col_indices
          colnames numpredictions =
        ⟨.msg "You must INITIALIZE MODELS (and highly preferably ANALYZE) before using predictive queries.", []⟩) := by
  constructor
  · intro h
    subst h
    rfl
  · intro hne hlat
    have hm : has_models ens = true := by
      simp [has_models, List.isEmpty_iff, hne]
    simp [simulate, hm, hlat]

/-- Witness for the amended C2, at concrete inputs: an empty ensemble raises
`NoModelsError`; a one-model ensemble with a `modelids` filter selecting no
model returns the advisory message. -/
theorem C2_simulate_empty_ensemble_amended_witness :
    simulate (fun _ _ n => List.replicate n [0]) ([] : Ensemble) none 3 idCodec
        none [0] ["c0"] 1 =
      ⟨.err .noModels, []⟩ ∧
    simulate (fun _ _ n => List.replicate n [0]) [(0, defaultModel)] (some [7]) 3 idCodec
        none [0] ["c0"] 1 =
      ⟨.msg "You must INITIALIZE MODELS (and highly preferably ANALYZE) before using predictive queries.", []⟩ := by
  constructor
  · exact (C2_simulate_empty_ensemble_amended (fun _ _ n => List.replicate n [0])
      [] none 3 idCodec none [0] ["c0"] 1).1 rfl
  · exact (C2_simulate_empty_ensemble_amended (fun _ _ n => List.replicate n [0])
      [(0, defaultModel)] (some [7]) 3 idCodec none [0] ["c0"] 1).2 (by simp) (by rfl)

/-! ## Claim C4 -/

/-- Claim C4: with an existing non-empty ensemble whose models all share
configuration `cfg`, `initializeModels` with a count `m` and an argument
resolving to the same `cfg` succeeds, yielding an ensemble of size `n + m`
whose models all share `cfg` (given the backend contract that `initialize`
returns `m` latent pairs); with an argument resolving to a different
configuration it fails with the configuration-mismatch error, performing no
backend call and leaving the ensemble exactly as it was. -/
theorem C4_initialize_models_config_check
    (backendInit : Nat → String → String → List (Nat × Nat))
    (ens : Ensemble) (cfg cfg2 : ModelConfig) (m : Nat) (arg arg2 : ModelConfigArg)
    (hne : ens ≠ [])
    (hshare : ∀ p ∈ ens, (Prod.snd p).model_config = some cfg)
    (hres : resolve_model_config arg = .ok cfg)
    (hlen : (backendInit m cfg.initialization cfg.row_initialization).length = m)
    (hres2 : resolve_model_config arg2 = .ok cfg2)
    (hdiff : cfg2 ≠ cfg) :
    ((initialize_models backendInit ens m arg).err = none ∧
     (initialize_models backendInit ens m arg).ensemble.length = ens.length + m ∧
     ∀ p ∈ (initialize_models backendInit ens m arg).ensemble,
       (Prod.snd p).model_config = some cfg) ∧
    initialize_models backendInit ens m arg2 = ⟨ens, some .configMismatch, []⟩ := by
  have hcfg : get_model_config ens = some cfg := by
    cases ens with
    | nil => exact absurd rfl hne
    | cons p rest => exact hshare p (List.mem_cons_self p rest)
  constructor
  · have h1 : initialize_models backendInit ens m arg =
        ⟨add_models ens ((backendInit m cfg.initialization cfg.row_initialization).map
            (fun p => { xL := p.1, xD := p.2, iterations := 0, logscore := [],
                        num_views := [], column_crp_alpha := [],
                        model_config := some cfg })),
         none, [.initializeOp m cfg.initialization cfg.row_initialization]⟩ := by
      rw [initialize_models, hres]
      dsimp only
      simp [hcfg]
    rw [h1]
    refine ⟨rfl, ?_, ?_⟩
    · simp [add_models_length, hlen]
    · intro p hp
      rcases mem_add_models hp with h | h
      · exact hshare p h
      · rcases List.mem_map.mp h with ⟨q, _, hq⟩
        rw [← hq]
  · rw [initialize_models, hres2]
    dsimp only
    rw [hcfg]
    rw [if_pos ⟨rfl, fun h => hdiff (Option.some.inj h).symm⟩]

/-- Witness for C4 at a concrete state: one existing naive-bayes model, two
more requested with the same preset, then a request with the other preset. -/
theorem C4_initialize_models_config_check_witness :
    (let m0 : Model := { xL := 3, xD := 4, iterations := 7, logscore := [1],
                         num_views := [], column_crp_alpha := [],
                         model_config := some naiveBayesConfig }
     let bi : Nat → String → String → List (Nat × Nat) := fun n _ _ => List.replicate n (0, 0)
     ((initialize_models bi [(0, m0)] 2 (.strArg "naive bayes")).err = none ∧
      (initialize_models bi [(0, m0)] 2 (.strArg "naive bayes")).ensemble.length = 1 + 2 ∧
      ∀ p ∈ (initialize_models bi [(0, m0)] 2 (.strArg "naive bayes")).ensemble,
        (Prod.snd p).model_config = some naiveBayesConfig) ∧
     initialize_models bi [(0, m0)] 2 (.strArg "crp mixture") =
       ⟨[(0, m0)], some .configMismatch, []⟩) := by
  exact C4_initialize_models_config_check _ _ naiveBayesConfig crpMixtureConfig 2 _ _
    (by simp) (by intro p hp; simp at hp; rw [hp]) (by rfl) (by rfl) (by rfl) (by decide)

/-! ## Claims C5 and C6: lemmas about `analyze` -/

theorem le_foldl_max (l : List Int) : ∀ a : Int, a ≤ l.foldl max a := by
  induction l with
  | nil => intro a; exact le_refl a
  | cons x xs ih => intro a; exact le_trans (le_max_left a x) (ih (max a x))

theorem get_max_model_id_nonneg {ens : Ensemble} (h : ens ≠ []) :
    0 ≤ get_max_model_id ens := by
  cases ens with
  | nil => exact absurd rfl h
  | cons p rest =>
      have h1 : (0 : Int) ≤ max (-1) ((p.1 : Nat) : Int) :=
        le_trans (Int.natCast_nonneg p.1) (le_max_right _ _)
      have h2 : get_max_model_id (p :: rest) =
          (rest.map (fun q => ((q.1 : Nat) : Int))).foldl max (max (-1) ((p.1 : Nat) : Int)) := by
        simp [get_max_model_id]
      rw [h2]
      exact le_trans h1 (le_foldl_max _ _)

theorem indexOfId_isSome_of_mem {i : Nat} {l : List Nat} (h : i ∈ l) :
    (indexOfId i l).isSome := by
  induction l with
  | nil => simp at h
  | cons j rest ih =>
      by_cases hji : j = i
      · simp [indexOfId, hji]
      · rcases List.mem_cons.mp h with h1 | h1
        · exact absurd h1.symm hji
        · have := ih h1
          simp only [indexOfId, if_neg hji]
          cases hidx : indexOfId i rest with
          | none => rw [hidx] at this; simp at this
          | some k => simp

theorem indexOfId_eq_none_of_not_mem {i : Nat} {l : List Nat} (h : i ∉ l) :
    indexOfId i l = none := by
  induction l with
  | nil => rfl
  | cons j rest ih =>
      have hji : j ≠ i := fun hj => h (hj ▸ List.mem_cons_self j rest)
      have hrest : i ∉ rest := fun hr => h (List.mem_cons_of_mem j hr)
      simp [indexOfId, hji, ih hrest]

theorem update_models_cons (p : Nat × Model) (rest : Ensemble) (modelids : List Nat)
    (xls xds : List Nat) (d : Diagnostics) :
    update_models (p :: rest) modelids xls xds d =
      (p.1, upd_entry modelids xls xds d p) :: update_models rest modelids xls xds d :=
  rfl

theorem lookup_update_models_iterations (ens : Ensemble) (modelids : List Nat)
    (xls xds : List Nat) (d : Diagnostics) (i : Nat) (hmem : i ∈ modelids) :
    ((update_models ens modelids xls xds d).lookup i).map Model.iterations =
      (ens.lookup i).map (fun mm => mm.iterations + d.logscore.length) := by
  induction ens with
  | nil => rfl
  | cons p rest ih =>
      obtain ⟨pk, pm⟩ := p
      rw [update_models_cons]
      cases hbeq : (i == pk) with
      | true =>
          have hpk : pk ∈ modelids := by
            have : i = pk := by simpa using hbeq
            exact this ▸ hmem
          obtain ⟨k, hk⟩ :=
            Option.isSome_iff_exists.mp (indexOfId_isSome_of_mem hpk)
          simp [List.lookup, hbeq, upd_entry, hk]
      | false =>
          simpa [List.lookup, hbeq] using ih

theorem lookup_update_models_not_mem (ens : Ensemble) (modelids : List Nat)
    (xls xds : List Nat) (d : Diagnostics) (i : Nat) (hmem : i ∉ modelids) :
    (update_models ens modelids xls xds d).lookup i = ens.lookup i := by
  induction ens with
  | nil => rfl
  | cons p rest ih =>
      obtain ⟨pk, pm⟩ := p
      rw [update_models_cons]
      cases hbeq : (i == pk) with
      | true =>
          have hnone : indexOfId pk modelids = none := by
            have : i = pk := by simpa using hbeq
            exact indexOfId_eq_none_of_not_mem (this ▸ hmem)
          simp [List.lookup, hbeq, upd_entry, hnone]
      | false =>
          simpa [List.lookup, hbeq] using ih

/-- The success-branch reduction of `analyze` with an explicit model-id list:
under the preconditions (non-empty ensemble, non-empty id list, every id
present) the call makes exactly one backend `analyze` invocation and writes
back through `update_models`. -/
theorem analyze_some_reduction
    (backendAnalyze : List Nat → List Nat → List String → Nat → Option Nat →
      (List Nat × List Nat × Diagnostics))
    (ens : Ensemble) (S : List Nat) (iterations seconds : Option Nat)
    (hne : ens ≠ []) (hSne : S ≠ [])
    (hSall : ∀ j ∈ S, (ens.lookup j).isSome) :
    analyze backendAnalyze ens (some S) iterations seconds =
      ⟨update_models ens S
          (backendAnalyze (analyze_xls ens S) (analyze_xds ens S) (analyze_kern ens S)
            (iterations.getD 1000) seconds).1
          (backendAnalyze (analyze_xls ens S) (analyze_xds ens S) (analyze_kern ens S)
            (iterations.getD 1000) seconds).2.1
          (backendAnalyze (analyze_xls ens S) (analyze_xds ens S) (analyze_kern ens S)
            (iterations.getD 1000) seconds).2.2,
       none, some "Analyze complete.",
       [.analyzeOp (analyze_xls ens S) (analyze_xds ens S) (analyze_kern ens S)
         (iterations.getD 1000) seconds]⟩ := by
  have hm : has_models ens = true := by
    simp [has_models, List.isEmpty_iff, hne]
  have hmax : ¬ get_max_model_id ens = -1 := by
    have := get_max_model_id_nonneg hne
    omega
  have hall : S.all (fun i => (ens.lookup i).isSome) = true := by
    rw [List.all_eq_true]
    exact hSall
  have hselne : (analyze_selected ens S).isEmpty = false := by
    cases S with
    | nil => exact absurd rfl hSne
    | cons j rest =>
        obtain ⟨mj, hmj⟩ :=
          Option.isSome_iff_exists.mp (hSall j (List.mem_cons_self j rest))
        simp [analyze_selected, hmj]
  rw [analyze]
  rw [hm]
  simp only [Bool.not_true, Bool.false_eq_true, if_false]
  rw [if_neg hmax]
  simp only [hall, Bool.not_true, Bool.false_eq_true, if_false]
  rw [hselne]
  simp

/-- Claim C5: after an `analyze` call on selected models `S`, the iteration
count credited to each selected model is its prior count plus the length of
the diagnostics (logscore) series the backend returned — not the requested
iteration count `k`, which appears only as the budget passed to the
backend. -/
theorem C5_analyze_iteration_accounting
    (backendAnalyze : List Nat → List Nat → List String → Nat → Option Nat →
      (List Nat × List Nat × Diagnostics))
    (ens : Ensemble) (S : List Nat) (k : Nat) (secs : Option Nat) (i : Nat) (mi : Model)
    (hne : ens ≠ []) (hSne : S ≠ [])
    (hSall : ∀ j ∈ S, (ens.lookup j).isSome)
    (hlook : ens.lookup i = some mi) (hiS : i ∈ S) :
    (analyze backendAnalyze ens (some S) (some k) secs).err = none ∧
    ((analyze backendAnalyze ens (some S) (some k) secs).ensemble.lookup i).map
        Model.iterations =
      some (mi.iterations +
        (backendAnalyze (analyze_xls ens S) (analyze_xds ens S) (analyze_kern ens S)
          k secs).2.2.logscore.length) := by
  rw [analyze_some_reduction backendAnalyze ens S (some k) secs hne hSne hSall]
  refine ⟨rfl, ?_⟩
  rw [lookup_update_models_iterations ens S _ _ _ i hiS]
  simp [hlook]

/-- Witness for C5 at a concrete state: two models, `S = [1]` selected, the
backend returning a 3-entry logscore series against a request of 1000
iterations — the credited count rises by 3, not 1000. -/
theorem C5_analyze_iteration_accounting_witness :
    (analyze witBackendAnalyze witEns (some [1]) (some 1000) none).err = none ∧
    ((analyze witBackendAnalyze witEns (some [1]) (some 1000) none).ensemble.lookup 1).map
        Model.iterations =
      some (20 +
        (witBackendAnalyze (analyze_xls witEns [1]) (analyze_xds witEns [1])
          (analyze_kern witEns [1]) 1000 none).2.2.logscore.length) := by
  exact C5_analyze_iteration_accounting witBackendAnalyze witEns [1] 1000 none 1 witModelB
    (by simp [witEns]) (by simp)
    (by intro j hj; simp at hj; subst hj; rfl) (by rfl) (by simp)

/-- Claim C6: an `analyze` call on selected model set `S` leaves every model
whose id is not in `S` entirely unchanged — same latent state, iteration
count and diagnostic series. -/
theorem C6_analyze_frame
    (backendAnalyze : List Nat → List Nat → List String → Nat → Option Nat →
      (List Nat × List Nat × Diagnostics))
    (ens : Ensemble) (S : List Nat) (iterations seconds : Option Nat) (i : Nat)
    (hne : ens ≠ []) (hSne : S ≠ [])
    (hSall : ∀ j ∈ S, (ens.lookup j).isSome)
    (hiS : i ∉ S) :
    (analyze backendAnalyze ens (some S) iterations seconds).err = none ∧
    (analyze backendAnalyze ens (some S) iterations seconds).ensemble.lookup i =
      ens.lookup i := by
  rw [analyze_some_reduction backendAnalyze ens S iterations seconds hne hSne hSall]
  exact ⟨rfl, lookup_update_models_not_mem ens S _ _ _ i hiS⟩

/-- Witness for C6 at a concrete state: analyzing only model 1 leaves model 0
untouched. -/
theorem C6_analyze_frame_witness :
    (analyze witBackendAnalyze witEns (some [1]) (some 1000) none).err = none ∧
    (analyze witBackendAnalyze witEns (some [1]) (some 1000) none).ensemble.lookup 0 =
      some witModelA := by
  refine (C6_analyze_frame witBackendAnalyze witEns [1] (some 1000) none 0
    (by simp [witEns]) (by simp)
    (by intro j hj; simp at hj; subst hj; rfl) (by simp)).imp id (fun h => ?_)
  rw [h]
  rfl

/-! ## Claims C7 and C10: lemmas about the `simulate` merge loop -/

theorem mergeRow_length (g : Nat → Option Int) (d : Nat → Int → Int) :
    ∀ (cols : List Nat) (samples : List Int) (r : List Int),
      mergeRow g d cols samples = some r → r.length = cols.length := by
  intro cols
  induction cols with
  | nil =>
      intro samples r h
      simp [mergeRow] at h
      simp [← h]
  | cons c rest ih =>
      intro samples r h
      cases hg : g c with
      | some v =>
          simp only [mergeRow, hg] at h
          obtain ⟨r2, hr2, hr⟩ := Option.map_eq_some'.mp h
          subst hr
          simp [ih samples r2 hr2]
      | none =>
          simp only [mergeRow, hg] at h
          cases samples with
          | nil => exact absurd h (by simp)
          | cons s srest =>
              obtain ⟨r2, hr2, hr⟩ := Option.map_eq_some'.mp h
              subst hr
              simp [ih srest r2 hr2]

theorem mergeRow_given (g : Nat → Option Int) (d : Nat → Int → Int) :
    ∀ (cols : List Nat) (samples : List Int) (r : List Int) (k : Nat) (v : Int),
      mergeRow g d cols samples = some r → k < cols.length →
      g (cols.getD k 0) = some v → r.getD k 0 = v := by
  intro cols
  induction cols with
  | nil => intro samples r k v _ hk; simp at hk
  | cons c rest ih =>
      intro samples r k v h hk hgk
      cases hg : g c with
      | some w =>
          simp only [mergeRow, hg] at h
          obtain ⟨r2, hr2, hr⟩ := Option.map_eq_some'.mp h
          subst hr
          cases k with
          | zero =>
              simp only [List.getD_cons_zero] at hgk ⊢
              rw [hg] at hgk
              exact (Option.some.inj hgk).symm ▸ rfl
          | succ j =>
              simp only [List.getD_cons_succ] at hgk ⊢
              exact ih samples r2 j v hr2 (by simpa using hk) hgk
      | none =>
          simp only [mergeRow, hg] at h
          cases samples with
          | nil => exact absurd h (by simp)
          | cons s srest =>
              obtain ⟨r2, hr2, hr⟩ := Option.map_eq_some'.mp h
              subst hr
              cases k with
              | zero =>
                  simp only [List.getD_cons_zero] at hgk
                  rw [hg] at hgk
                  exact absurd hgk (by simp)
              | succ j =>
                  simp only [List.getD_cons_succ] at hgk ⊢
                  exact ih srest r2 j v hr2 (by simpa using hk) hgk

theorem mergeRow_sampled (g : Nat → Option Int) (d : Nat → Int → Int) :
    ∀ (cols : List Nat) (samples : List Int) (r : List Int) (k : Nat),
      mergeRow g d cols samples = some r → k < cols.length →
      g (cols.getD k 0) = none →
      r.getD k 0 = d (cols.getD k 0) (samples.getD (nonGivenBefore g cols k) 0) := by
  intro cols
  induction cols with
  | nil => intro samples r k _ hk; simp at hk
  | cons c rest ih =>
      intro samples r k h hk hgk
      cases hg : g c with
      | some w =>
          simp only [mergeRow, hg] at h
          obtain ⟨r2, hr2, hr⟩ := Option.map_eq_some'.mp h
          subst hr
          cases k with
          | zero =>
              simp only [List.getD_cons_zero] at hgk
              rw [hg] at hgk
              exact absurd hgk (by simp)
          | succ j =>
              simp only [List.getD_cons_succ] at hgk ⊢
              have hng : nonGivenBefore g (c :: rest) (j + 1) = nonGivenBefore g rest j := by
                simp [nonGivenBefore, List.take_succ_cons, List.filter_cons, hg]
              rw [hng]
              exact ih samples r2 j hr2 (by simpa using hk) hgk
      | none =>
          simp only [mergeRow, hg] at h
          cases samples with
          | nil => exact absurd h (by simp)
          | cons s srest =>
              obtain ⟨r2, hr2, hr⟩ := Option.map_eq_some'.mp h
              subst hr
              cases k with
              | zero =>
                  simp [nonGivenBefore, hg]
              | succ j =>
                  simp only [List.getD_cons_succ] at hgk ⊢
                  have hng : nonGivenBefore g (c :: rest) (j + 1) =
                      nonGivenBefore g rest j + 1 := by
                    simp [nonGivenBefore, List.take_succ_cons, List.filter_cons, hg]
                  rw [hng]
                  simp only [List.getD_cons_succ]
                  exact ih srest r2 j hr2 (by simpa using hk) hgk

theorem mergeRow_isSome (g : Nat → Option Int) (d : Nat → Int → Int) :
    ∀ (cols : List Nat) (samples : List Int),
      (cols.filter (fun c => (g c).isNone)).length ≤ samples.length →
      (mergeRow g d cols samples).isSome := by
  intro cols
  induction cols with
  | nil => intro samples _; simp [mergeRow]
  | cons c rest ih =>
      intro samples hlen
      cases hg : g c with
      | some v =>
          simp only [mergeRow, hg]
          have := ih samples (by simpa [List.filter_cons, hg] using hlen)
          simpa using this
      | none =>
          simp only [mergeRow, hg]
          cases samples with
          | nil =>
              exfalso
              simp [List.filter_cons, hg] at hlen
          | cons s srest =>
              have := ih srest (by
                have := hlen
                simp only [List.filter_cons, hg, Option.isNone_none, if_true,
                  List.length_cons] at this
                omega)
              simpa using this

theorem mergeRows_length (g : Nat → Option Int) (d : Nat → Int → Int)
    (cols : List Nat) :
    ∀ (out data : List (List Int)),
      mergeRows g d cols out = some data → data.length = out.length := by
  intro out
  induction out with
  | nil =>
      intro data h
      simp [mergeRows] at h
      simp [← h]
  | cons o os ih =>
      intro data h
      rw [mergeRows] at h
      cases h1 : mergeRow g d cols o with
      | none => rw [h1] at h; exact absurd h (by simp)
      | some r =>
          rw [h1] at h
          cases h2 : mergeRows g d cols os with
          | none => rw [h2] at h; exact absurd h (by simp)
          | some rs =>
              rw [h2] at h
              cases h
              simp [ih rs h2]

theorem mergeRows_getD (g : Nat → Option Int) (d : Nat → Int → Int)
    (cols : List Nat) :
    ∀ (out data : List (List Int)) (j : Nat),
      mergeRows g d cols out = some data → j < out.length →
      mergeRow g d cols (out.getD j []) = some (data.getD j []) := by
  intro out
  induction out with
  | nil => intro data j _ hj; simp at hj
  | cons o os ih =>
      intro data j h hj
      rw [mergeRows] at h
      cases h1 : mergeRow g d cols o with
      | none => rw [h1] at h; exact absurd h (by simp)
      | some r =>
          rw [h1] at h
          cases h2 : mergeRows g d cols os with
          | none => rw [h2] at h; exact absurd h (by simp)
          | some rs =>
              rw [h2] at h
              cases h
              cases j with
              | zero => simpa using h1
              | succ j2 =>
                  simp only [List.getD_cons_succ]
                  exact ih rs j2 h2 (by simpa using hj)

theorem mergeRows_isSome (g : Nat → Option Int) (d : Nat → Int → Int)
    (cols : List Nat) :
    ∀ out : List (List Int),
      (∀ o ∈ out, (cols.filter (fun c => (g c).isNone)).length ≤ o.length) →
      (mergeRows g d cols out).isSome := by
  intro out
  induction out with
  | nil => intro _; simp [mergeRows]
  | cons o os ih =>
      intro hall
      rw [mergeRows]
      obtain ⟨r, hr⟩ := Option.isSome_iff_exists.mp
        (mergeRow_isSome g d cols o (hall o (List.mem_cons_self o os)))
      obtain ⟨rs, hrs⟩ := Option.isSome_iff_exists.mp
        (ih (fun q hq => hall q (List.mem_cons_of_mem o hq)))
      rw [hr, hrs]
      simp

/-- Reduction of `simulate` on the sampling path: with models present, a
non-empty selected latent list, at least one non-given queried column, and a
backend returning `numpredictions` sufficiently long draws, the call performs
exactly one `simple_predictive_sample` invocation and merges its output. -/
theorem simulate_sampling_reduction
    (backendSample : Option (List (Nat × Nat × Int)) → List (Nat × Nat) → Nat →
      List (List Int))
    (ens : Ensemble) (modelids : Option (List Nat)) (numrows : Nat) (codec : MCodec)
    (givens : Option (List (Nat × Int))) (col_indices : List Nat)
    (colnames : List String) (numpredictions : Nat) (data : List (List Int))
    (hm : has_models ens = true)
    (hlat : (get_latent_states ens modelids).isEmpty = false)
    (hQ : 0 < (sim_Q numrows givens col_indices).length)
    (hlen : (backendSample (sim_Y numrows codec givens)
        (sim_Q numrows givens col_indices) numpredictions).length = numpredictions)
    (hn : 1 ≤ numpredictions)
    (hmr : mergeRows (given_lookup givens) codec.decode col_indices
        (backendSample (sim_Y numrows codec givens)
          (sim_Q numrows givens col_indices) numpredictions) = some data) :
    simulate backendSample ens modelids numrows codec givens col_indices colnames
        numpredictions =
      ⟨.ok colnames data,
       [BackendOp.sampleOp (sim_Y numrows codec givens)
         (sim_Q numrows givens col_indices) numpredictions]⟩ := by
  rw [simulate]
  rw [hm, hlat]
  simp only [Bool.not_true, Bool.false_eq_true, if_false]
  rw [if_pos hQ]
  rw [if_neg (not_not_intro ⟨hn.trans_eq hlen.symm, hlen⟩)]
  rw [hmr]

/-- Counterexample to claim C7 as universally stated: a `simulate` call with
a non-empty ensemble in which every queried column is fixed by a given makes
NO backend sampling call (the code only calls the backend when the residual
query set `Q` is non-empty), yet succeeds, echoing the given value. -/
theorem C7_simulate_no_call_counterexample :
    (simulate witBackendSample witEns none 3 idCodec (some [(0, 7)]) [0] ["c0"] 1).calls =
      [] ∧
    (simulate witBackendSample witEns none 3 idCodec (some [(0, 7)]) [0] ["c0"] 1).result =
      .ok ["c0"] [[7]] := by
  exact ⟨rfl, rfl⟩

/-- Claim C7 as amended: for every `simulate` call with a non-empty ensemble
(and non-empty selected latents) in which **at least one** queried column is
not fixed by a given, exactly one backend sampling call is made, requesting
`numpredictions` draws for exactly the queried columns not fixed by a given
(`sim_Q`), and — provided the backend honors the draw-count and row-length
contract — every returned row carries each given column's value verbatim and
each non-given queried column's decoded sampled value (consuming the draw
entries in order). -/
theorem C7_simulate_sampling_amended
    (backendSample : Option (List (Nat × Nat × Int)) → List (Nat × Nat) → Nat →
      List (List Int))
    (ens : Ensemble) (modelids : Option (List Nat)) (numrows : Nat) (codec : MCodec)
    (givens : Option (List (Nat × Int))) (col_indices : List Nat)
    (colnames : List String) (numpredictions : Nat)
    (hm : has_models ens = true)
    (hlat : (get_latent_states ens modelids).isEmpty = false)
    (hq : sim_query_cols givens col_indices ≠ [])
    (hlen : (backendSample (sim_Y numrows codec givens)
        (sim_Q numrows givens col_indices) numpredictions).length = numpredictions)
    (hn : 1 ≤ numpredictions)
    (hrow : ∀ o ∈ backendSample (sim_Y numrows codec givens)
        (sim_Q numrows givens col_indices) numpredictions,
      (sim_Q numrows givens col_indices).length ≤ o.length) :
    (simulate backendSample ens modelids numrows codec givens col_indices colnames
        numpredictions).calls =
      [BackendOp.sampleOp (sim_Y numrows codec givens)
        (sim_Q numrows givens col_indices) numpredictions] ∧
    ∃ data,
      (simulate backendSample ens modelids numrows codec givens col_indices colnames
          numpredictions).result = .ok colnames data ∧
      data.length = numpredictions ∧
      (∀ j k v, j < numpredictions → k < col_indices.length →
        given_lookup givens (col_indices.getD k 0) = some v →
        (data.getD j []).getD k 0 = v) ∧
      (∀ j k, j < numpredictions → k < col_indices.length →
        given_lookup givens (col_indices.getD k 0) = none →
        (data.getD j []).getD k 0 =
          codec.decode (col_indices.getD k 0)
            (((backendSample (sim_Y numrows codec givens)
                (sim_Q numrows givens col_indices) numpredictions).getD j []).getD
              (nonGivenBefore (given_lookup givens) col_indices k) 0)) := by
  have hfilter : (col_indices.filter
      (fun c => (given_lookup givens c).isNone)).length =
      (sim_Q numrows givens col_indices).length := by
    simp [sim_Q, sim_query_cols]
  have hQ : 0 < (sim_Q numrows givens col_indices).length := by
    rw [← hfilter]
    have : sim_query_cols givens col_indices ≠ [] := hq
    simp only [sim_query_cols] at this
    exact List.length_pos.mpr this
  obtain ⟨data, hmr⟩ := Option.isSome_iff_exists.mp
    (mergeRows_isSome (given_lookup givens) codec.decode col_indices
      (backendSample (sim_Y numrows codec givens)
        (sim_Q numrows givens col_indices) numpredictions)
      (fun o ho => hfilter ▸ hrow o ho))
  rw [simulate_sampling_reduction backendSample ens modelids numrows codec givens
    col_indices colnames numpredictions data hm hlat hQ hlen hn hmr]
  refine ⟨rfl, data, rfl, ?_, ?_, ?_⟩
  · rw [mergeRows_length _ _ _ _ data hmr, hlen]
  · intro j k v hj hk hgk
    have hmj := mergeRows_getD _ _ _ _ data j hmr (by rw [hlen]; exact hj)
    exact mergeRow_given _ _ col_indices _ _ k v hmj hk hgk
  · intro j k hj hk hgk
    have hmj := mergeRows_getD _ _ _ _ data j hmr (by rw [hlen]; exact hj)
    exact mergeRow_sampled _ _ col_indices _ _ k hmj hk hgk

/-- Witness for the amended C7 at concrete inputs: two queried columns, one
fixed by a given; one backend call with a one-cell `Q`; both returned rows
carry the given value verbatim in the given column and the decoded draw in
the other. -/
theorem C7_simulate_sampling_amended_witness :
    (simulate witBackendSample witEns none 2 idCodec (some [(1, 5)]) [0, 1]
        ["a", "b"] 2).calls =
      [BackendOp.sampleOp (sim_Y 2 idCodec (some [(1, 5)]))
        (sim_Q 2 (some [(1, 5)]) [0, 1]) 2] ∧
    ∃ data,
      (simulate witBackendSample witEns none 2 idCodec (some [(1, 5)]) [0, 1]
          ["a", "b"] 2).result = .ok ["a", "b"] data ∧
      data.length = 2 ∧
      (∀ j k v, j < 2 → k < 2 →
        given_lookup (some [(1, 5)]) ([0, 1].getD k 0) = some v →
        (data.getD j []).getD k 0 = v) ∧
      (∀ j k, j < 2 → k < 2 →
        given_lookup (some [(1, 5)]) ([0, 1].getD k 0) = none →
        (data.getD j []).getD k 0 =
          idCodec.decode ([0, 1].getD k 0)
            (((witBackendSample (sim_Y 2 idCodec (some [(1, 5)]))
                (sim_Q 2 (some [(1, 5)]) [0, 1]) 2).getD j []).getD
              (nonGivenBefore (given_lookup (some [(1, 5)])) [0, 1] k) 0)) := by
  exact C7_simulate_sampling_amended witBackendSample witEns none 2 idCodec
    (some [(1, 5)]) [0, 1] ["a", "b"] 2 (by rfl) (by rfl) (by decide) (by rfl)
    (by omega) (by decide)

/-! ## Claim C10 -/

theorem mergeRow_all_given (g : Nat → Option Int) (d : Nat → Int → Int) :
    ∀ cols : List Nat, (∀ c ∈ cols, (g c).isSome) →
      ∀ samples : List Int,
        mergeRow g d cols samples = some (cols.map (fun c => (g c).getD 0)) := by
  intro cols
  induction cols with
  | nil => intro _ samples; rfl
  | cons c rest ih =>
      intro hall samples
      obtain ⟨v, hv⟩ := Option.isSome_iff_exists.mp (hall c (List.mem_cons_self c rest))
      simp only [mergeRow, hv, List.map_cons]
      rw [ih (fun q hq => hall q (List.mem_cons_of_mem c hq)) samples]
      simp [hv]

theorem mergeRows_replicate_all_given (g : Nat → Option Int) (d : Nat → Int → Int)
    (cols : List Nat) (hall : ∀ c ∈ cols, (g c).isSome) :
    ∀ n : Nat,
      mergeRows g d cols (List.replicate n []) =
        some (List.replicate n (cols.map (fun c => (g c).getD 0))) := by
  intro n
  induction n with
  | zero => rfl
  | succ n2 ih =>
      simp only [List.replicate_succ, mergeRows, mergeRow_all_given g d cols hall, ih]

/-- Claim C10: a `simulate` call with a non-empty ensemble,
`numpredictions ≥ 1`, and every queried column fixed by a given makes no
backend call; the result holds exactly `numpredictions` rows, each echoing
the given values. -/
theorem C10_simulate_all_given
    (backendSample : Option (List (Nat × Nat × Int)) → List (Nat × Nat) → Nat →
      List (List Int))
    (ens : Ensemble) (modelids : Option (List Nat)) (numrows : Nat) (codec : MCodec)
    (givens : Option (List (Nat × Int))) (col_indices : List Nat)
    (colnames : List String) (numpredictions : Nat)
    (hm : has_models ens = true)
    (hlat : (get_latent_states ens modelids).isEmpty = false)
    (hall : ∀ c ∈ col_indices, (given_lookup givens c).isSome)
    (hn : 1 ≤ numpredictions) :
    simulate backendSample ens modelids numrows codec givens col_indices colnames
        numpredictions =
      ⟨.ok colnames (List.replicate numpredictions
          (col_indices.map (fun c => (given_lookup givens c).getD 0))), []⟩ := by
  have hqnil : sim_query_cols givens col_indices = [] := by
    rw [sim_query_cols, List.filter_eq_nil_iff]
    intro c hc
    simp [Option.isNone_iff_eq_none]
    exact Option.isSome_iff_exists.mp (hall c hc) |>.elim (fun v hv => by simp [hv])
  have hQ : ¬ 0 < (sim_Q numrows givens col_indices).length := by
    simp [sim_Q, hqnil]
  rw [simulate]
  rw [hm, hlat]
  simp only [Bool.not_true, Bool.false_eq_true, if_false]
  rw [if_neg hQ]
  rw [if_neg (not_not_intro ⟨by simpa using hn, by simp⟩)]
  rw [mergeRows_replicate_all_given (given_lookup givens) codec.decode col_indices hall
    numpredictions]

/-- Witness for C10 at concrete inputs: both queried columns given, two rows
requested; no backend call, two identical rows echoing the given values. -/
theorem C10_simulate_all_given_witness :
    simulate witBackendSample witEns none 3 idCodec (some [(0, 7), (2, 8)]) [2, 0]
        ["c2", "c0"] 2 =
      ⟨.ok ["c2", "c0"] (List.replicate 2
          ([2, 0].map (fun c => (given_lookup (some [(0, 7), (2, 8)]) c).getD 0))), []⟩ := by
  exact C10_simulate_all_given witBackendSample witEns none 3 idCodec
    (some [(0, 7), (2, 8)]) [2, 0] ["c2", "c0"] 2 (by rfl) (by rfl)
    (by intro c hc; simp at hc; rcases hc with h | h <;> subst h <;> rfl) (by omega)

/-! ## Claim C8 -/

theorem resolve_cctypes_sound (src_M_c : Schema) :
    ∀ cols : List String,
      (∀ c ∈ cols, (src_M_c.lookup c).isSome) →
      ∃ schema, resolve_cctypes src_M_c cols = some schema ∧
        ∀ q ∈ schema, src_M_c.lookup q.1 = some q.2 := by
  intro cols
  induction cols with
  | nil => intro _; exact ⟨[], rfl, by simp⟩
  | cons c rest ih =>
      intro hall
      obtain ⟨t, ht⟩ := Option.isSome_iff_exists.mp
        (hall c (List.mem_cons_self c rest))
      obtain ⟨s, hs, hsound⟩ := ih (fun q hq => hall q (List.mem_cons_of_mem c hq))
      refine ⟨(c, t) :: s, ?_, ?_⟩
      · simp [resolve_cctypes, get_cctype_from_M_c, ht, hs]
      · intro q hq
        rcases List.mem_cons.mp hq with h | h
        · subst h; exact ht
        · exact hsound q h

/-- Claim C8: `create_btable_from_existing` (the INTO materialization path,
also the table-creation gate generally) fails outright with the
already-exists error when the target name names an existing table, writing
nothing; otherwise it creates the table and every column of the new schema
that reuses a source column name carries the source table's declared type. -/
theorem C8_into_materialization (cat : Catalog) (tablename : String)
    (colnames_full : List String) (src_M_c : Schema) :
    (check_if_table_exists cat tablename = true →
      create_btable_from_existing cat tablename colnames_full src_M_c =
        ⟨cat, some .tableExists, none⟩) ∧
    (check_if_table_exists cat tablename = false →
      (∀ c ∈ colnames_full, c ≠ "row_id" → (src_M_c.lookup c).isSome) →
      ∃ schema,
        create_btable_from_existing cat tablename colnames_full src_M_c =
          ⟨cat ++ [(tablename, schema)], none, some schema⟩ ∧
        ∀ q ∈ schema, src_M_c.lookup q.1 = some q.2) := by
  constructor
  · intro hex
    rw [create_btable_from_existing, if_pos hex]
  · intro hex hall
    have hall2 : ∀ c ∈ colnames_full.filter (fun c => c ≠ "row_id"),
        (src_M_c.lookup c).isSome := by
      intro c hc
      have := List.mem_filter.mp hc
      exact hall c this.1 (by simpa using this.2)
    obtain ⟨schema, hres, hsound⟩ :=
      resolve_cctypes_sound src_M_c (colnames_full.filter (fun c => c ≠ "row_id")) hall2
    refine ⟨schema, ?_, hsound⟩
    rw [create_btable_from_existing, if_neg (by simp [hex])]
    dsimp only
    rw [hres]

/-- Witness for C8 at concrete inputs: creating `t1` fails against a catalog
that already holds `t1` and writes nothing; against a catalog holding only
`src`, the new table reuses `age:continuous` and `job:multinomial` from the
source metadata (with `row_id` dropped). -/
theorem C8_into_materialization_witness :
    (create_btable_from_existing [("t1", [("age", CCType.continuous)])] "t1"
        ["age"] [("age", CCType.continuous)] =
      ⟨[("t1", [("age", CCType.continuous)])], some .tableExists, none⟩) ∧
    ∃ schema,
      create_btable_from_existing [("src", [("age", CCType.continuous), ("job", CCType.multinomial)])]
          "t2" ["row_id", "age", "job"]
          [("age", CCType.continuous), ("job", CCType.multinomial)] =
        ⟨[("src", [("age", CCType.continuous), ("job", CCType.multinomial)])] ++
           [("t2", schema)], none, some schema⟩ ∧
      ∀ q ∈ schema,
        ([("age", CCType.continuous), ("job", CCType.multinomial)] : Schema).lookup q.1 =
          some q.2 := by
  constructor
  · exact (C8_into_materialization [("t1", [("age", CCType.continuous)])] "t1"
      ["age"] [("age", CCType.continuous)]).1 (by rfl)
  · exact (C8_into_materialization
      [("src", [("age", CCType.continuous), ("job", CCType.multinomial)])] "t2"
      ["row_id", "age", "job"]
      [("age", CCType.continuous), ("job", CCType.multinomial)]).2 (by rfl)
      (by decide)

end BayesDB
